import Mathlib

/-!
Verification development for the cinematic-ai backend gateway.

Shallow embedding of the core subsystems of the repository:
the B2 object-store listing (`shared.py`), the per-source gallery caches
(`shared.py`, `apiframe.py`, `kling.py`, `pollinations.py`), the media relay
(`download_and_upload_to_b2`, `download_and_upload_video_to_b2` in
`shared.py`), the provider poll loops (`apiframe.py` `generate_apiframe`,
`kling.py` `generate_kling_video`) and the Pollinations URL construction
(`pollinations.py`).

Network effects are modelled by passing the sequence of provider/store
responses explicitly; clock reads are passed as explicit `Nat` timestamps
(seconds); `sleep` calls are recorded in an explicit trace so backoff
schedules are observable.
-/

namespace CinematicAI

/-- A catalog entry as built by the Python code (a dict).  The kling writer
omits the `key`/`folder` fields and the video lister adds a `type` field, so
those are `Option`s; `time` is the unix timestamp (seconds). -/
structure Entry where
  url : String
  b2_url : String
  key : Option String
  folder : Option String
  time : Nat
  source : Option String
  mediaType : Option String
  deriving Repr, DecidableEq

/-- One object returned by `ListObjectsV2` (`Contents`): its key and its
last-modified unix timestamp. -/
structure B2Obj where
  key : String
  lastModified : Nat
  deriving Repr, DecidableEq

/-- The character-level run since the last separator: used to model
`key.split(SLASH)[-1]` (SLASH the path separator). -/
def lastComponent (l : List Char) : List Char :=
  l.foldl (fun acc c => if c = '/' then [] else acc ++ [c]) []

/-- `key.split(SLASH)[-1]` (SLASH the path separator) from
`_sync_list_b2_objects`: the final path component of an object key. -/
def filenameOf (key : String) : String :=
  String.mk (lastComponent key.data)

/-- `filename.endswith(suffix)`, on the character lists. -/
def strEndsWith (s suffix : String) : Bool :=
  suffix.data.isSuffixOf s.data

/-- Descending-by-`time` comparison used to model
`files.sort(key=lambda x: x["time"], reverse=True)`:  the Python stable sort
with `reverse=True` is a stable sort by the flipped (≥) order. -/
def timeDesc (a b : Entry) : Bool :=
  b.time ≤ a.time

/-- The entry dict built for one listed image object in
`_sync_list_b2_objects`. -/
def mkImageEntry (baseUrl pfx : String) (obj : B2Obj) : Entry :=
  { url := baseUrl ++ "/" ++ obj.key
    b2_url := baseUrl ++ "/" ++ obj.key
    key := some obj.key
    folder := some pfx
    time := obj.lastModified
    source := none
    mediaType := none }

/-- The entry dict built for one listed video object in
`_sync_list_b2_videos` (adds `"type": "video"`). -/
def mkVideoEntry (baseUrl pfx : String) (obj : B2Obj) : Entry :=
  { url := baseUrl ++ "/" ++ obj.key
    b2_url := baseUrl ++ "/" ++ obj.key
    key := some obj.key
    folder := some pfx
    time := obj.lastModified
    source := none
    mediaType := some "video" }

/-- `_sync_list_b2_objects` (`shared.py` 218-250): keep the listed objects
whose filename ends in `.png`, build entry dicts, sort descending by time.
The `Contents` of the store response are passed in as `contents`; the
exception branch (returning `[]`) is not taken in this pure model. -/
def sync_list_b2_objects (baseUrl pfx : String) (contents : List B2Obj) : List Entry :=
  let files := contents.filterMap fun obj =>
    if strEndsWith (filenameOf obj.key) ".png" then
      some (mkImageEntry baseUrl pfx obj)
    else
      none
  files.mergeSort timeDesc

/-- `_sync_list_b2_videos` (`shared.py` 253-286): same shape as the image
lister but keeps `.mp4` filenames and tags entries with `type: video`. -/
def sync_list_b2_videos (baseUrl pfx : String) (contents : List B2Obj) : List Entry :=
  let files := contents.filterMap fun obj =>
    if strEndsWith (filenameOf obj.key) ".mp4" then
      some (mkVideoEntry baseUrl pfx obj)
    else
      none
  files.mergeSort timeDesc

/-- One per-source gallery cache: the module-level dicts
`cache_omnigen` / `cache_apiframe` / `cache_video` / `cache_kling`
(`{"data": [], "timestamp": 0}`). -/
structure CacheState where
  data : List Entry
  timestamp : Nat
  deriving Repr, DecidableEq

/-- `GALLERY_CACHE_TTL = 300` (`shared.py` 56). -/
def GALLERY_CACHE_TTL : Nat := 300

/-- `refresh_cache` for an image source (`shared.py` 289-316): relist from
the store, replace the cache wholesale, stamp the timestamp with `now`. -/
def refresh_cache_images (baseUrl pfx : String) (contents : List B2Obj) (now : Nat) :
    CacheState :=
  { data := sync_list_b2_objects baseUrl pfx contents, timestamp := now }

/-- `refresh_cache` for a video source (`shared.py` 294-304). -/
def refresh_cache_videos (baseUrl pfx : String) (contents : List B2Obj) (now : Nat) :
    CacheState :=
  { data := sync_list_b2_videos baseUrl pfx contents, timestamp := now }

/-- Result of a gallery read: the returned entries, the cache state after
the read, and whether a refresh (a store access) happened. -/
structure ReadResult where
  result : List Entry
  state : CacheState
  refreshed : Bool
  deriving Repr, DecidableEq

/-- The gallery read endpoints (`get_apiframe_gallery`, `get_kling_gallery`,
`get_pollinations_gallery`, `get_video_gallery`): if the cached data is
non-empty (Python truthiness) and `now - timestamp < GALLERY_CACHE_TTL`,
return the cached data without touching the store; otherwise refresh
synchronously and return the refreshed data.  `refreshEntries` is the list
the refresh would rebuild (the output of the appropriate lister on the
current contents of the store). -/
def gallery_read (c : CacheState) (now : Nat) (refreshEntries : List Entry) : ReadResult :=
  if c.data ≠ [] ∧ now - c.timestamp < GALLERY_CACHE_TTL then
    { result := c.data, state := c, refreshed := false }
  else
    { result := refreshEntries, state := { data := refreshEntries, timestamp := now },
      refreshed := true }

/-- The entry dict inserted by `generate_apiframe` (`apiframe.py` 169-176). -/
def apiframeEntry (b2_url : String) (now : Nat) : Entry :=
  { url := b2_url, b2_url := b2_url, key := some b2_url, folder := some "apiFrame",
    time := now, source := some "apiFrame", mediaType := none }

/-- The entry dict inserted by `generate_kling_video` (`kling.py` 225-230). -/
def klingEntry (b2_url : String) (now : Nat) : Entry :=
  { url := b2_url, b2_url := b2_url, key := none, folder := none,
    time := now, source := some "kling", mediaType := none }

/-- The cache update performed by `generate_apiframe` on a successful relay
(`apiframe.py` 168-176): `cache_apiframe["data"].insert(0, {...})`, guarded
by `if b2_url:`; the timestamp is not touched. -/
def apiframe_cache_write (c : CacheState) (b2_url : String) (now : Nat) : CacheState :=
  if b2_url = "" then c
  else { data := apiframeEntry b2_url now :: c.data, timestamp := c.timestamp }

/-- The cache update performed by `generate_kling_video` on a successful
upload (`kling.py` 225-230): `cache_kling["data"].insert(0, {...})`,
guarded by `if b2_url:`; the timestamp is not touched. -/
def kling_cache_write (c : CacheState) (b2_url : String) (now : Nat) : CacheState :=
  if b2_url = "" then c
  else { data := klingEntry b2_url now :: c.data, timestamp := c.timestamp }

/-! ## Media relay (`shared.py`) -/

/-- One download response: HTTP 429, another error status (for which
`response.raise_for_status()` raises), or success with a byte body. -/
inductive DlResp where
  | rate429
  | errStatus
  | ok (data : List Nat)
  deriving Repr, DecidableEq

/-- Outcome of the download `for` loop: data obtained (`image_data`,
possibly `None` modelled as `[]` when the loop ends without a `break`),
an early `return ""` after exhausting the 429 budget, or an exception
raised out of the loop (caught by the outer `except` of the function). -/
inductive DlResult where
  | got (data : List Nat)
  | giveUp
  | raised
  deriving Repr, DecidableEq

/-- The download loop of `download_and_upload_to_b2` (`shared.py` 173-188):
`for attempt in range(4)`; on 429 with `attempt < 3` sleep
`3 * (attempt + 1)` seconds and retry, on 429 at the last attempt return
failure; any other non-success status raises.  The second component is the
trace of sleep durations. -/
def imageDlGo (resp : Nat → DlResp) : Nat → Nat → DlResult × List Nat
  | _, 0 => (.got [], [])
  | attempt, fuel + 1 =>
    match resp attempt with
    | .rate429 =>
      if attempt < 3 then
        let r := imageDlGo resp (attempt + 1) fuel
        (r.1, 3 * (attempt + 1) :: r.2)
      else (.giveUp, [])
    | .errStatus => (.raised, [])
    | .ok data => (.got data, [])

/-- The download loop of `download_and_upload_video_to_b2`
(`shared.py` 121-136): `for attempt in range(3)`; on 429 with
`attempt < 2` sleep `5 * (attempt + 1)` seconds and retry, on 429 at the
last attempt return failure. -/
def videoDlGo (resp : Nat → DlResp) : Nat → Nat → DlResult × List Nat
  | _, 0 => (.got [], [])
  | attempt, fuel + 1 =>
    match resp attempt with
    | .rate429 =>
      if attempt < 2 then
        let r := videoDlGo resp (attempt + 1) fuel
        (r.1, 5 * (attempt + 1) :: r.2)
      else (.giveUp, [])
    | .errStatus => (.raised, [])
    | .ok data => (.got data, [])

/-- What the store upload does once reached: `_sync_put_object` succeeded
and composed a URL, `_sync_put_object` caught an internal exception and
returned `""`, or the outer `asyncio.wait_for` timed out. -/
inductive UploadOutcome where
  | ok (url : String)
  | storeFail
  | timeout
  deriving Repr, DecidableEq

/-- The relay environment: the sequence of download responses, whether
`s3_client` is configured, and what the upload would do. -/
structure RelayEnv where
  resp : Nat → DlResp
  s3Configured : Bool
  upload : UploadOutcome

/-- `download_and_upload_to_b2` (`shared.py` 165-215).  Returns the relayed
URL (`""` on any failure — the outer `except` also returns `""`) together
with the trace of sleeps performed. -/
def download_and_upload_to_b2 (env : RelayEnv) : String × List Nat :=
  let r := imageDlGo env.resp 0 4
  match r.1 with
  | .giveUp => ("", r.2)
  | .raised => ("", r.2)
  | .got data =>
    if data = [] then ("", r.2)
    else if env.s3Configured = false then ("", r.2)
    else
      match env.upload with
      | .ok url => (url, r.2)
      | .storeFail => ("", r.2)
      | .timeout => ("", r.2)

/-- `download_and_upload_video_to_b2` (`shared.py` 113-162): same shape as
the image relay with the video download loop. -/
def download_and_upload_video_to_b2 (env : RelayEnv) : String × List Nat :=
  let r := videoDlGo env.resp 0 3
  match r.1 with
  | .giveUp => ("", r.2)
  | .raised => ("", r.2)
  | .got data =>
    if data = [] then ("", r.2)
    else if env.s3Configured = false then ("", r.2)
    else
      match env.upload with
      | .ok url => (url, r.2)
      | .storeFail => ("", r.2)
      | .timeout => ("", r.2)

/-! ## Pollinations endpoints (`pollinations.py`) -/

def POLLINATIONS_API_BASE : String := "https://gen.pollinations.ai"

/-- The request URL built by `generate_pollinations`
(`pollinations.py` 193-205).  `q` models `urllib.parse.quote`;
`promptBoosted` is the prompt with the quality booster appended. -/
def pollinations_image_url (q : String → String) (promptBoosted model : String)
    (width height seed : Nat) (negative key : String) : String :=
  POLLINATIONS_API_BASE ++ "/image/" ++ q promptBoosted
    ++ "?model=" ++ model
    ++ "&width=" ++ toString width
    ++ "&height=" ++ toString height
    ++ "&seed=" ++ toString seed
    ++ "&enhance=true"
    ++ "&nologo=true"
    ++ "&negative=" ++ q negative
    ++ (if key ≠ "" then "&key=" ++ key else "")

/-- The request URL built by `generate_pollinations_img2img`
(`pollinations.py` 248-262).  `q` models `quote`, `qs` models
`quote` with an empty safe set; `editPrompt` is the prompt with the edit suffix. -/
def pollinations_img2img_url (q qs : String → String) (editPrompt model sourceImage : String)
    (seed : Nat) (negative key : String) : String :=
  POLLINATIONS_API_BASE ++ "/image/" ++ q editPrompt
    ++ "?model=" ++ model
    ++ "&image=" ++ qs sourceImage
    ++ "&seed=" ++ toString seed
    ++ "&nologo=true"
    ++ "&negative=" ++ q negative
    ++ (if key ≠ "" then "&key=" ++ key else "")

/-- The `{url, b2_url}` payload of a generation response. -/
structure GenResponse where
  url : String
  b2_url : String
  deriving Repr, DecidableEq

/-- The tail of `generate_pollinations` (`pollinations.py` 213-229): run the
relay on the provider URL; `final_url = b2_url if b2_url else image_url`;
respond with `{"url": image_url, "b2_url": final_url}`. -/
def generate_pollinations (env : RelayEnv) (image_url : String) : GenResponse :=
  let b2 := (download_and_upload_to_b2 env).1
  { url := image_url, b2_url := if b2 = "" then image_url else b2 }

/-- The tail of `generate_pollinations_img2img` (`pollinations.py`
270-286): same shape as the text-to-image tail — run the relay on the
provider URL, `final_url = b2_url if b2_url else image_url`, respond with
`{"url": image_url, "b2_url": final_url}`. -/
def generate_pollinations_img2img (env : RelayEnv) (image_url : String) : GenResponse :=
  let b2 := (download_and_upload_to_b2 env).1
  { url := image_url, b2_url := if b2 = "" then image_url else b2 }

/-- The request URL built by `generate_pollinations_video`
(`pollinations.py` 311-340).  `q` models `quote`, `qs` models `quote` with
an empty safe set; the `image` parameter is appended only for a truthy
`image_url`, `audio=true` only when audio is requested on the `veo`
model, and the key only when configured. -/
def pollinations_video_url (q qs : String → String) (prompt model : String)
    (duration : Nat) (aspect_ratio : String) (seed : Nat)
    (image_url : Option String) (audio : Bool) (key : String) : String :=
  POLLINATIONS_API_BASE ++ "/image/" ++ q prompt
    ++ "?model=" ++ model
    ++ "&duration=" ++ toString duration
    ++ "&aspectRatio=" ++ aspect_ratio
    ++ "&seed=" ++ toString seed
    ++ (match image_url with
        | some u => if u = "" then "" else "&image=" ++ qs u
        | none => "")
    ++ (if audio ∧ model = "veo" then "&audio=true" else "")
    ++ (if key ≠ "" then "&key=" ++ key else "")

/-- `upload_video_to_b2` (`shared.py` 80-110): empty video data, a missing
`s3_client`, an internal `_sync_put_object` exception, or an
`asyncio.wait_for` timeout all yield `""`; otherwise the composed durable
URL is returned. -/
def upload_video_to_b2 (s3Configured : Bool) (video_data : List Nat)
    (up : UploadOutcome) : String :=
  if video_data = [] then ""
  else if s3Configured = false then ""
  else
    match up with
    | .ok url => url
    | .storeFail => ""
    | .timeout => ""

/-- The response tail of `generate_pollinations_video` (`pollinations.py`
352-411): after a 200 download of the provider URL (body `video_data`),
upload via `upload_video_to_b2`; `final_url = b2_url if b2_url else
video_url`; respond with `{"url": video_url, "b2_url": final_url}`. -/
def generate_pollinations_video (s3Configured : Bool) (video_data : List Nat)
    (up : UploadOutcome) (video_url : String) : GenResponse :=
  let b2 := upload_video_to_b2 s3Configured video_data up
  { url := video_url, b2_url := if b2 = "" then video_url else b2 }

/-! ## APIFrame poller (`apiframe.py`) -/

/-- The JSON body of one `POST /fetch` poll response, as probed by
`generate_apiframe`: the `status` field, the optional `image_urls` list,
the optional single `image_url`, the optional `output` (a string or a
list), and the optional `error` used in the failure message.  An absent
field is `none`; a present-but-empty value is `some` of the empty value
(Python truthiness distinguishes them the same way the model does). -/
structure FetchState where
  status : String
  image_urls : Option (List String)
  image_url : Option String
  output : Option (Sum String (List String))
  error : Option String
  deriving Repr, DecidableEq

/-- The observable result of one poll attempt: non-200 HTTP status, an empty
JSON body, or a parsed body. -/
inductive FetchResp where
  | non200
  | emptyJson
  | ok (st : FetchState)
  deriving Repr, DecidableEq

/-- The `output` probe (`apiframe.py` 141-143):
`out = state["output"]; final = out[0] if isinstance(out, list) else out`,
guarded by Python truthiness of `state["output"]` (an empty string or
empty list leaves `final_image_url` unset, i.e. `""`). -/
def extract_output (st : FetchState) : String :=
  match st.output with
  | some (Sum.inl s) => s
  | some (Sum.inr (u :: _)) => u
  | some (Sum.inr []) => ""
  | none => ""

/-- Result-URL extraction on a done status (`apiframe.py` 136-143): probe
`image_urls` (a non-empty list) first, then a truthy `image_url`, then
`output`; the first match wins. -/
def extract_final_image_url (st : FetchState) : String :=
  match st.image_urls with
  | some (u :: _) => u
  | _ =>
    match st.image_url with
    | some u => if u = "" then extract_output st else u
    | none => extract_output st

/-- The probe order as the claim states it (single best image field first,
then the list-of-media field, then the generic `output` field): the tail
starting at the list field. -/
def extract_claim_list (st : FetchState) : String :=
  match st.image_urls with
  | some (u :: _) => u
  | _ => extract_output st

/-- Modelled from the spec: the extraction order claim C5 asserts — the
single `image_url` field first, then the `image_urls` list, then `output`;
first non-empty match wins.  For comparison with
`extract_final_image_url`, which is the order of the code. -/
def extract_claim_order (st : FetchState) : String :=
  match st.image_url with
  | some u => if u = "" then extract_claim_list st else u
  | none => extract_claim_list st

/-- `status in ["finished", "completed", "succeeded"]` (`apiframe.py` 136). -/
def apiframe_done (status : String) : Bool :=
  status = "finished" || status = "completed" || status = "succeeded"

/-- An HTTP error response (`fastapi.HTTPException(code, detail)`). -/
structure HttpErr where
  code : Nat
  detail : String
  deriving Repr, DecidableEq

/-- The body of one iteration of the APIFrame poll loop
(`apiframe.py` 121-153), as executed inside the `try`: `.ok (some u)`
breaks with a final URL, `.ok none` continues, `.error e` is the
`HTTPException` raised on a `failed` status (line 153). -/
def apiframe_poll_step (r : FetchResp) : Except HttpErr (Option String) :=
  match r with
  | .non200 => .ok none
  | .emptyJson => .ok none
  | .ok st =>
    if apiframe_done st.status then
      let u := extract_final_image_url st
      if u ≠ "" then .ok (some u) else .ok none
    else if st.status = "failed" then
      .error { code := 500, detail := "Generation failed: " ++ st.error.getD "Unknown" }
    else .ok none

/-- The APIFrame poll loop (`apiframe.py` 119-157): `for i in range(20)`,
each iteration running `apiframe_poll_step` inside
`try: ... except Exception: continue` — so a step that raises (including
the `HTTPException` of the `failed` branch) is swallowed and the loop
continues.  Returns the final URL, if any, and the number of poll attempts
performed. -/
def apiframe_poll_loop (resps : Nat → FetchResp) : Nat → Nat → Option String × Nat
  | _, 0 => (none, 0)
  | i, fuel + 1 =>
    match apiframe_poll_step (resps i) with
    | .ok (some u) => (some u, 1)
    | .ok none =>
      let r := apiframe_poll_loop resps (i + 1) fuel
      (r.1, r.2 + 1)
    | .error _ =>
      let r := apiframe_poll_loop resps (i + 1) fuel
      (r.1, r.2 + 1)

/-- The asynchronous tail of `generate_apiframe` (`apiframe.py` 116-160):
run the poll loop with cap 20; if no final URL was obtained, raise
`HTTPException(504, "Generation timed out")`. -/
def generate_apiframe_poll (resps : Nat → FetchResp) : Except HttpErr String × Nat :=
  let r := apiframe_poll_loop resps 0 20
  match r.1 with
  | some u => (.ok u, r.2)
  | none => (.error { code := 504, detail := "Generation timed out" }, r.2)

/-! ## Kling poller (`kling.py`) -/

/-- One Kling status query body as probed by `generate_kling_video`:
`data.task_status`, the `data.task_result.videos` list (the optional
`url` field of each video, read with `.get("url")`), and the optional
`data.task_status_msg`. -/
structure KlingState where
  task_status : String
  videos : List (Option String)
  task_status_msg : Option String
  deriving Repr, DecidableEq

/-- One Kling poll attempt: non-200 HTTP status (skipped) or a parsed
body. -/
inductive KlingResp where
  | non200
  | ok (st : KlingState)
  deriving Repr, DecidableEq

/-- How the Kling poll loop ended: `break` with `videos[0].get("url")`,
the `HTTPException` of the `failed` branch (`kling.py` 203, which
propagates), or cap exhaustion. -/
inductive KlingLoopOut where
  | broke (video_url : Option String)
  | failedErr (detail : String)
  | exhausted
  deriving Repr, DecidableEq

/-- The Kling poll loop (`kling.py` 182-206): `for attempt in
range(max_attempts)`; non-200 continues; `succeed` with a non-empty
`videos` list breaks with the `url` of the first video; `failed` raises
`HTTPException(500, "Kling generation failed: " + msg)`, which is not
caught inside the loop; anything else continues.  Also counts poll
attempts. -/
def kling_poll_loop (resps : Nat → KlingResp) : Nat → Nat → KlingLoopOut × Nat
  | _, 0 => (.exhausted, 0)
  | i, fuel + 1 =>
    match resps i with
    | .non200 =>
      let r := kling_poll_loop resps (i + 1) fuel
      (r.1, r.2 + 1)
    | .ok st =>
      if st.task_status = "succeed" then
        match st.videos with
        | v :: _ => (.broke v, 1)
        | [] =>
          let r := kling_poll_loop resps (i + 1) fuel
          (r.1, r.2 + 1)
      else if st.task_status = "failed" then
        (.failedErr ("Kling generation failed: " ++ st.task_status_msg.getD "Unknown error"), 1)
      else
        let r := kling_poll_loop resps (i + 1) fuel
        (r.1, r.2 + 1)

/-- The polling tail of `generate_kling_video` (`kling.py` 179-209): run
the loop with `max_attempts = 120`; a propagated `failed` exception is
surfaced as-is (the outer `except HTTPException: raise`); otherwise, if no
truthy `video_url` was obtained, raise
`HTTPException(500, "Video generation timed out")`. -/
def generate_kling_video_poll (resps : Nat → KlingResp) : Except HttpErr String × Nat :=
  let r := kling_poll_loop resps 0 120
  match r.1 with
  | .failedErr d => (.error { code := 500, detail := d }, r.2)
  | .broke (some u) =>
    if u = "" then (.error { code := 500, detail := "Video generation timed out" }, r.2)
    else (.ok u, r.2)
  | .broke none => (.error { code := 500, detail := "Video generation timed out" }, r.2)
  | .exhausted => (.error { code := 500, detail := "Video generation timed out" }, r.2)

/-- A Kling poll response on which the loop continues (no terminal state
reached at this attempt): a non-200 reply, a `succeed` with an empty
`videos` list, or any status other than `succeed` and `failed`. -/
def kling_continues : KlingResp → Prop
  | .non200 => True
  | .ok st => (st.task_status = "succeed" → st.videos = []) ∧ st.task_status ≠ "failed"

/-! ## Cache operation sequences (for the sortedness invariant) -/

/-- `entries` is sorted descending by the `time` field. -/
def SortedDesc (l : List Entry) : Prop :=
  l.Pairwise fun a b => b.time ≤ a.time

/-- One cache mutation as performed by the code, tagged with the clock
value `t` at which it runs: a wholesale refresh (`refresh_cache`) from the
listed store contents, or one of the generation-endpoint writes
(`insert(0, ...)` stamped `time.time()`). -/
inductive CacheOp where
  | refreshImages (t : Nat) (baseUrl pfx : String) (contents : List B2Obj)
  | refreshVideos (t : Nat) (baseUrl pfx : String) (contents : List B2Obj)
  | writeApiframe (t : Nat) (b2_url : String)
  | writeKling (t : Nat) (b2_url : String)

/-- The clock value at which an operation runs. -/
def CacheOp.time : CacheOp → Nat
  | .refreshImages t _ _ _ => t
  | .refreshVideos t _ _ _ => t
  | .writeApiframe t _ => t
  | .writeKling t _ => t

/-- Environment wellformedness of one operation: the store never reports a
last-modified timestamp in the future of the refresh that lists it. -/
def CacheOp.wf : CacheOp → Prop
  | .refreshImages t _ _ contents => ∀ o ∈ contents, o.lastModified ≤ t
  | .refreshVideos t _ _ contents => ∀ o ∈ contents, o.lastModified ≤ t
  | .writeApiframe _ _ => True
  | .writeKling _ _ => True

/-- Apply one cache operation to a cache state. -/
def applyCacheOp (c : CacheState) : CacheOp → CacheState
  | .refreshImages t baseUrl pfx contents => refresh_cache_images baseUrl pfx contents t
  | .refreshVideos t baseUrl pfx contents => refresh_cache_videos baseUrl pfx contents t
  | .writeApiframe t b2_url => apiframe_cache_write c b2_url t
  | .writeKling t b2_url => kling_cache_write c b2_url t

/-- Run a sequence of cache operations from an initial state. -/
def execCacheOps (c : CacheState) (ops : List CacheOp) : CacheState :=
  ops.foldl applyCacheOp c

/-- A wellformed operation sequence starting at clock `t`: operation times
are nondecreasing (the clock is monotone) and each operation is itself
wellformed. -/
def opsWF : Nat → List CacheOp → Prop
  | _, [] => True
  | t, op :: rest => t ≤ op.time ∧ op.wf ∧ opsWF op.time rest

/-! ## Helper lemmas -/

theorem apiframe_loop_all_pending (resps : Nat → FetchResp)
    (h : ∀ i, apiframe_poll_step (resps i) = .ok none) :
    ∀ fuel i, apiframe_poll_loop resps i fuel = (none, fuel) := by
  intro fuel
  induction fuel with
  | zero => intro i; rfl
  | succ n ih => intro i; simp [apiframe_poll_loop, h i, ih (i + 1)]

theorem kling_loop_all_pending (resps : Nat → KlingResp)
    (h : ∀ i, kling_continues (resps i)) :
    ∀ fuel i, kling_poll_loop resps i fuel = (.exhausted, fuel) := by
  intro fuel
  induction fuel with
  | zero => intro i; rfl
  | succ n ih =>
    intro i
    cases hri : resps i with
    | non200 => simp [kling_poll_loop, hri, ih (i + 1)]
    | ok st =>
      have hc := h i
      rw [hri] at hc
      simp only [kling_continues] at hc
      obtain ⟨h1, h2⟩ := hc
      by_cases hs : st.task_status = "succeed"
      · simp [kling_poll_loop, hri, hs, h1 hs, ih (i + 1)]
      · simp [kling_poll_loop, hri, hs, h2, ih (i + 1)]

theorem timeDesc_trans (a b c : Entry) (hab : timeDesc a b = true)
    (hbc : timeDesc b c = true) : timeDesc a c = true := by
  simp only [timeDesc, decide_eq_true_eq] at *
  omega

theorem timeDesc_total (a b : Entry) : (timeDesc a b || timeDesc b a) = true := by
  simp only [timeDesc, Bool.or_eq_true, decide_eq_true_eq]
  omega

theorem sortedDesc_mergeSort (l : List Entry) : SortedDesc (l.mergeSort timeDesc) := by
  have h := @List.sorted_mergeSort Entry timeDesc timeDesc_trans timeDesc_total l
  exact h.imp fun hab => by simpa [timeDesc] using hab

theorem mem_sync_list_images {baseUrl pfx : String} {contents : List B2Obj} {e : Entry}
    (he : e ∈ sync_list_b2_objects baseUrl pfx contents) :
    ∃ o ∈ contents, e = mkImageEntry baseUrl pfx o := by
  have hp : e ∈ contents.filterMap fun obj =>
      if strEndsWith (filenameOf obj.key) ".png" then some (mkImageEntry baseUrl pfx obj)
      else none :=
    (List.mergeSort_perm _ timeDesc).mem_iff.1 he
  rcases List.mem_filterMap.1 hp with ⟨o, ho, hsome⟩
  by_cases hpng : strEndsWith (filenameOf o.key) ".png"
  · rw [if_pos hpng] at hsome
    exact ⟨o, ho, (Option.some.inj hsome).symm⟩
  · rw [if_neg hpng] at hsome
    exact absurd hsome (Option.noConfusion)

theorem mem_sync_list_videos {baseUrl pfx : String} {contents : List B2Obj} {e : Entry}
    (he : e ∈ sync_list_b2_videos baseUrl pfx contents) :
    ∃ o ∈ contents, e = mkVideoEntry baseUrl pfx o := by
  have hp : e ∈ contents.filterMap fun obj =>
      if strEndsWith (filenameOf obj.key) ".mp4" then some (mkVideoEntry baseUrl pfx obj)
      else none :=
    (List.mergeSort_perm _ timeDesc).mem_iff.1 he
  rcases List.mem_filterMap.1 hp with ⟨o, ho, hsome⟩
  by_cases hmp4 : strEndsWith (filenameOf o.key) ".mp4"
  · rw [if_pos hmp4] at hsome
    exact ⟨o, ho, (Option.some.inj hsome).symm⟩
  · rw [if_neg hmp4] at hsome
    exact absurd hsome (Option.noConfusion)

theorem applyCacheOp_inv (c : CacheState) (t : Nat) (op : CacheOp)
    (hs : SortedDesc c.data) (hb : ∀ e ∈ c.data, e.time ≤ t) (hwf : op.wf)
    (ht : t ≤ op.time) :
    SortedDesc (applyCacheOp c op).data ∧
      ∀ e ∈ (applyCacheOp c op).data, e.time ≤ op.time := by
  cases op with
  | refreshImages t2 baseUrl pfx contents =>
    refine ⟨sortedDesc_mergeSort _, ?_⟩
    intro e he
    rcases mem_sync_list_images he with ⟨o, ho, rfl⟩
    exact hwf o ho
  | refreshVideos t2 baseUrl pfx contents =>
    refine ⟨sortedDesc_mergeSort _, ?_⟩
    intro e he
    rcases mem_sync_list_videos he with ⟨o, ho, rfl⟩
    exact hwf o ho
  | writeApiframe t2 b2 =>
    by_cases hb2 : b2 = ""
    · simp only [applyCacheOp, apiframe_cache_write, if_pos hb2]
      exact ⟨hs, fun e he => le_trans (hb e he) ht⟩
    · simp only [applyCacheOp, apiframe_cache_write, if_neg hb2]
      constructor
      · exact List.pairwise_cons.2 ⟨fun e he => le_trans (hb e he) ht, hs⟩
      · intro e he
        rcases List.mem_cons.1 he with rfl | he2
        · exact le_refl _
        · exact le_trans (hb e he2) ht
  | writeKling t2 b2 =>
    by_cases hb2 : b2 = ""
    · simp only [applyCacheOp, kling_cache_write, if_pos hb2]
      exact ⟨hs, fun e he => le_trans (hb e he) ht⟩
    · simp only [applyCacheOp, kling_cache_write, if_neg hb2]
      constructor
      · exact List.pairwise_cons.2 ⟨fun e he => le_trans (hb e he) ht, hs⟩
      · intro e he
        rcases List.mem_cons.1 he with rfl | he2
        · exact le_refl _
        · exact le_trans (hb e he2) ht

theorem execCacheOps_inv :
    ∀ (ops : List CacheOp) (c : CacheState) (t : Nat),
      SortedDesc c.data → (∀ e ∈ c.data, e.time ≤ t) → opsWF t ops →
      SortedDesc (execCacheOps c ops).data := by
  intro ops
  induction ops with
  | nil => intro c t hs _ _; exact hs
  | cons op rest ih =>
    intro c t hs hb hwf
    obtain ⟨h1, h2, h3⟩ := hwf
    have h := applyCacheOp_inv c t op hs hb h2 h1
    exact ih (applyCacheOp c op) op.time h.1 h.2 h3

theorem sync_list_images_ne_nil {baseUrl pfx : String} {contents : List B2Obj}
    (h : (contents.filterMap fun obj =>
      if strEndsWith (filenameOf obj.key) ".png" then some (mkImageEntry baseUrl pfx obj)
      else none) ≠ []) :
    sync_list_b2_objects baseUrl pfx contents ≠ [] := by
  intro he
  apply h
  have he2 : ((contents.filterMap fun obj =>
      if strEndsWith (filenameOf obj.key) ".png" then some (mkImageEntry baseUrl pfx obj)
      else none).mergeSort timeDesc) = [] := he
  have hl := @List.length_mergeSort Entry timeDesc
    (contents.filterMap fun obj =>
      if strEndsWith (filenameOf obj.key) ".png" then some (mkImageEntry baseUrl pfx obj)
      else none)
  rw [he2] at hl
  exact List.length_eq_zero.1 hl.symm

theorem filterMap_if_eq_map_filter {α β : Type} (p : α → Bool) (f : α → β) :
    ∀ l : List α,
      (l.filterMap fun a => if p a then some (f a) else none) = (l.filter p).map f := by
  intro l
  induction l with
  | nil => rfl
  | cons a l ih =>
    by_cases h : p a <;> simp [List.filterMap_cons, List.filter_cons, h, ih]

/-! ## Claim theorems -/

/-- C1: on a poll sequence ending in an explicit provider `failed` status,
the APIFrame poller does NOT surface the GenerationFailed-style error the
claim requires.  The loop body does raise `HTTPException(500, "Generation
failed: <reason>")` (first conjunct), but that raise sits inside the poll
try-block whose catch-all `except Exception: continue` swallows it, so
after the 20-attempt cap the endpoint raises
`HTTPException(504, "Generation timed out")` instead (second conjunct).
The Kling poller, by contrast, behaves as the claim states (third
conjunct). -/
theorem C1_apiframe_failed_status_times_out :
    apiframe_poll_step (FetchResp.ok ⟨"failed", none, none, none, some "boom"⟩) =
      .error ⟨500, "Generation failed: boom"⟩ ∧
    generate_apiframe_poll (fun _ => FetchResp.ok ⟨"failed", none, none, none, some "boom"⟩) =
      (.error ⟨504, "Generation timed out"⟩, 20) ∧
    generate_kling_video_poll (fun _ => KlingResp.ok ⟨"failed", [], some "boom"⟩) =
      (.error ⟨500, "Kling generation failed: boom"⟩, 1) :=
  ⟨rfl, rfl, rfl⟩

/-- C3: a poll sequence that never reaches a terminal state is cut off by
the attempt cap — exactly 20 status attempts for APIFrame and exactly 120
for Kling — and the surfaced error is the timeout error (504 "Generation
timed out" for APIFrame, 500 "Video generation timed out" for Kling),
which is distinct from the explicit provider-failure errors. -/
theorem C3_attempt_cap_timeout (respsA : Nat → FetchResp) (respsK : Nat → KlingResp)
    (hA : ∀ i, apiframe_poll_step (respsA i) = .ok none)
    (hK : ∀ i, kling_continues (respsK i)) :
    generate_apiframe_poll respsA = (.error ⟨504, "Generation timed out"⟩, 20) ∧
    generate_kling_video_poll respsK = (.error ⟨500, "Video generation timed out"⟩, 120) := by
  constructor
  · simp [generate_apiframe_poll, apiframe_loop_all_pending respsA hA 20 0]
  · simp [generate_kling_video_poll, kling_loop_all_pending respsK hK 120 0]

/-- Witness for C3: the constant non-200 poll streams never reach a
terminal state and indeed time out after exactly 20 resp. 120 attempts. -/
theorem C3_attempt_cap_timeout_witness :
    generate_apiframe_poll (fun _ => FetchResp.non200) =
      (.error ⟨504, "Generation timed out"⟩, 20) ∧
    generate_kling_video_poll (fun _ => KlingResp.non200) =
      (.error ⟨500, "Video generation timed out"⟩, 120) :=
  C3_attempt_cap_timeout _ _ (fun _ => rfl) (fun _ => trivial)

/-- C4 counterexample: the video relay receives HTTP 429 three consecutive
times (with the download succeeding at what would be the fourth attempt)
and fails, returning the empty result after only two backoff sleeps (5 s
and 10 s) — so the video relay retries at most 2 times with base 5, not
"up to 3 times" with the same schedule as images as the claim states. -/
theorem C4_video_429_budget_counterexample :
    download_and_upload_video_to_b2
      { resp := fun i => if i < 3 then .rate429 else .ok [1],
        s3Configured := true, upload := .ok "https://b/v.mp4" } = ("", [5, 10]) := by
  decide

/-- C4 (amended): on consecutive HTTP 429 responses the image relay sleeps
3·(attempt+1) seconds — 3 s, 6 s, 9 s, totalling 18 s — and returns the
empty result at the fourth 429 (up to 3 retries); the video relay sleeps
5·(attempt+1) seconds — 5 s, 10 s — and returns the empty result at the
third 429 (up to 2 retries).  Neither raises.  The last two conjuncts show
the budgets are exact: a download that stops returning 429 at the last
allowed attempt succeeds. -/
theorem C4_retry_schedule (envI envV : RelayEnv)
    (hI : ∀ i, envI.resp i = .rate429) (hV : ∀ i, envV.resp i = .rate429) :
    download_and_upload_to_b2 envI = ("", [3, 6, 9]) ∧
    download_and_upload_video_to_b2 envV = ("", [5, 10]) ∧
    download_and_upload_to_b2
      { resp := fun i => if i < 3 then .rate429 else .ok [1],
        s3Configured := true, upload := .ok "https://b/i.png" } =
      ("https://b/i.png", [3, 6, 9]) ∧
    download_and_upload_video_to_b2
      { resp := fun i => if i < 2 then .rate429 else .ok [1],
        s3Configured := true, upload := .ok "https://b/v.mp4" } =
      ("https://b/v.mp4", [5, 10]) := by
  refine ⟨?_, ?_, by decide, by decide⟩
  · have h4 : imageDlGo envI.resp 0 4 = (.giveUp, [3, 6, 9]) := by
      simp [imageDlGo, hI 0, hI 1, hI 2, hI 3]
    simp [download_and_upload_to_b2, h4]
  · have h3 : videoDlGo envV.resp 0 3 = (.giveUp, [5, 10]) := by
      simp [videoDlGo, hV 0, hV 1, hV 2]
    simp [download_and_upload_video_to_b2, h3]

/-- Witness for C4 (amended), at the constant-429 environments. -/
theorem C4_retry_schedule_witness :
    download_and_upload_to_b2
      { resp := fun _ => .rate429, s3Configured := true, upload := .ok "u" } =
      ("", [3, 6, 9]) ∧
    download_and_upload_video_to_b2
      { resp := fun _ => .rate429, s3Configured := true, upload := .ok "u" } =
      ("", [5, 10]) := by
  have h := C4_retry_schedule
    { resp := fun _ => .rate429, s3Configured := true, upload := .ok "u" }
    { resp := fun _ => .rate429, s3Configured := true, upload := .ok "u" }
    (fun _ => rfl) (fun _ => rfl)
  exact ⟨h.1, h.2.1⟩

/-- C5 counterexample: a done response carrying both a non-empty
`image_urls` list and a truthy single `image_url` is resolved by the code
to the list element, while the probe order the claim states (single best
image field first) would resolve it to the single field. -/
theorem C5_probe_order_counterexample :
    extract_final_image_url
      ⟨"finished", some ["http://list0"], some "http://single", none, none⟩ =
      "http://list0" ∧
    extract_claim_order
      ⟨"finished", some ["http://list0"], some "http://single", none, none⟩ =
      "http://single" ∧
    ("http://list0" : String) ≠ "http://single" := by
  refine ⟨?_, ?_, ?_⟩ <;> decide

/-- C5 (amended): on a done status the result-URL extraction probes the
response fields in the fixed priority order list-of-media first
(`image_urls[0]`), then the single image field (`image_url`, when truthy),
then the generic `output` field; the first non-empty match is taken. -/
theorem C5_probe_order (st : FetchState) :
    (∀ u l, st.image_urls = some (u :: l) → extract_final_image_url st = u) ∧
    ((st.image_urls = none ∨ st.image_urls = some []) →
      ∀ u, st.image_url = some u → u ≠ "" → extract_final_image_url st = u) ∧
    ((st.image_urls = none ∨ st.image_urls = some []) →
      (st.image_url = none ∨ st.image_url = some "") →
      extract_final_image_url st = extract_output st) := by
  obtain ⟨s, ius, iu, out, err⟩ := st
  refine ⟨?_, ?_, ?_⟩
  · intro u l h
    simp only at h
    subst h
    rfl
  · rintro (h | h) u hu hne <;> simp only at h hu <;> subst h <;> subst hu <;>
      simp [extract_final_image_url, hne]
  · rintro (h | h) (h2 | h2) <;> simp only at h h2 <;> subst h <;> subst h2 <;>
      simp [extract_final_image_url]

/-- Witness for C5 (amended): the list field wins on a concrete state. -/
theorem C5_probe_order_witness :
    extract_final_image_url ⟨"finished", some ["http://a"], none, none, none⟩ =
      "http://a" :=
  (C5_probe_order _).1 "http://a" [] rfl

/-- C2: the image relay fails softly — on a download error, an exhausted
429 budget, missing store credentials, or an upload timeout it returns the
empty result and never raises — and the Pollinations generation endpoint
then responds successfully with the ephemeral provider URL as both `url`
and `b2_url`. -/
theorem C2_relay_soft_fail (env : RelayEnv) (u : String)
    (h : env.s3Configured = false ∨ env.upload = .timeout ∨
      (∀ i, env.resp i = .rate429) ∨ env.resp 0 = .errStatus) :
    (download_and_upload_to_b2 env).1 = "" ∧
    generate_pollinations env u = { url := u, b2_url := u } := by
  have hdl : (download_and_upload_to_b2 env).1 = "" := by
    rcases h with h | h | h | h
    · rcases he : imageDlGo env.resp 0 4 with ⟨r, sl⟩
      cases r with
      | got data =>
        by_cases hd : data = [] <;>
          simp [download_and_upload_to_b2, he, hd, h]
      | giveUp => simp [download_and_upload_to_b2, he]
      | raised => simp [download_and_upload_to_b2, he]
    · rcases he : imageDlGo env.resp 0 4 with ⟨r, sl⟩
      cases r with
      | got data =>
        by_cases hd : data = []
        · simp [download_and_upload_to_b2, he, hd]
        · by_cases hs : env.s3Configured = false <;>
            simp [download_and_upload_to_b2, he, hd, hs, h]
      | giveUp => simp [download_and_upload_to_b2, he]
      | raised => simp [download_and_upload_to_b2, he]
    · have h4 : imageDlGo env.resp 0 4 = (.giveUp, [3, 6, 9]) := by
        simp [imageDlGo, h 0, h 1, h 2, h 3]
      simp [download_and_upload_to_b2, h4]
    · have h4 : imageDlGo env.resp 0 4 = (.raised, []) := by
        simp [imageDlGo, h]
      simp [download_and_upload_to_b2, h4]
  exact ⟨hdl, by simp [generate_pollinations, hdl]⟩

/-- Witness for C2: the missing-credentials environment (with a successful
download) yields the empty relay result and the fallback response. -/
theorem C2_relay_soft_fail_witness :
    (download_and_upload_to_b2
      { resp := fun _ => .ok [1], s3Configured := false, upload := .ok "u" }).1 = "" ∧
    generate_pollinations
      { resp := fun _ => .ok [1], s3Configured := false, upload := .ok "u" }
      "https://p/img" =
      { url := "https://p/img", b2_url := "https://p/img" } :=
  C2_relay_soft_fail _ _ (Or.inl rfl)

/-- C6 counterexample: a refresh that rebuilt an empty entries list is
immediately followed (0 seconds later, well inside the 300 s TTL window)
by a read — and that read performs a second refresh, because the freshness
check also requires the cached entries to be non-empty. -/
theorem C6_read_after_empty_refresh_counterexample :
    (gallery_read (refresh_cache_images "https://b" "apiFrame" [] 100) 100 []).refreshed
      = true ∧
    100 - (refresh_cache_images "https://b" "apiFrame" [] 100).timestamp
      < GALLERY_CACHE_TTL := by
  refine ⟨?_, by decide⟩
  simp [gallery_read, refresh_cache_images, sync_list_b2_objects, List.mergeSort_nil]

/-- C6 (amended): a gallery read returns the cached entries with no store
access iff the cached entries are non-empty and `now − lastRefreshedAt`
is below the 300 s TTL; otherwise it performs a synchronous refresh and
returns its result.  Consequently a read immediately following a refresh
that produced a NON-EMPTY entries list never triggers a second refresh
within the TTL window (third conjunct); after a refresh that produced an
empty list the next read refreshes again. -/
theorem C6_read_freshness (c : CacheState) (now : Nat) (re : List Entry) :
    (c.data ≠ [] → now - c.timestamp < GALLERY_CACHE_TTL →
      gallery_read c now re = { result := c.data, state := c, refreshed := false }) ∧
    (¬(c.data ≠ [] ∧ now - c.timestamp < GALLERY_CACHE_TTL) →
      gallery_read c now re =
        { result := re, state := { data := re, timestamp := now }, refreshed := true }) ∧
    (∀ baseUrl pfx contents t, c = refresh_cache_images baseUrl pfx contents t →
      c.data ≠ [] → now - t < GALLERY_CACHE_TTL →
      (gallery_read c now re).refreshed = false) := by
  refine ⟨?_, ?_, ?_⟩
  · intro h1 h2
    simp [gallery_read, h1, h2]
  · intro h
    simp only [gallery_read, if_neg h]
  · intro baseUrl pfx contents t hc h1 h2
    subst hc
    have hcond : (refresh_cache_images baseUrl pfx contents t).data ≠ [] ∧
        now - (refresh_cache_images baseUrl pfx contents t).timestamp
          < GALLERY_CACHE_TTL := ⟨h1, h2⟩
    unfold gallery_read
    rw [if_pos hcond]

/-- Witness for C6 (amended): after a refresh at time 50 that listed one
`.png` object, a read at time 100 (inside the TTL window) does not
refresh. -/
theorem C6_read_freshness_witness :
    (gallery_read
      (refresh_cache_images "https://b" "apiFrame" [⟨"apiFrame/a.png", 10⟩] 50)
      100 []).refreshed = false :=
  (C6_read_freshness _ _ _).2.2 "https://b" "apiFrame" [⟨"apiFrame/a.png", 10⟩] 50
    rfl (sync_list_images_ne_nil (by decide)) (by decide)

/-- C7: after any wellformed sequence of refresh and write operations (the
clock is monotone and the store never reports a future last-modified
timestamp), the entries of the cache are sorted descending by their `time`
field — refresh rebuilds the sequence newest-first from the last-modified
timestamps and replaces it wholesale, and each write prepends one entry
stamped with the current time. -/
theorem C7_entries_sorted_desc (c0 : CacheState) (t0 : Nat) (ops : List CacheOp)
    (hs : SortedDesc c0.data) (hb : ∀ e ∈ c0.data, e.time ≤ t0)
    (hwf : opsWF t0 ops) :
    SortedDesc (execCacheOps c0 ops).data :=
  execCacheOps_inv ops c0 t0 hs hb hwf

/-- Witness for C7: a refresh of two objects followed by a later write
leaves the entries sorted descending. -/
theorem C7_entries_sorted_desc_witness :
    SortedDesc (execCacheOps ⟨[], 0⟩
      [CacheOp.refreshImages 10 "https://b" "apiFrame"
        [⟨"apiFrame/a.png", 3⟩, ⟨"apiFrame/b.png", 7⟩],
       CacheOp.writeApiframe 20 "https://b/c.png"]).data :=
  C7_entries_sorted_desc ⟨[], 0⟩ 0 _ List.Pairwise.nil (by simp)
    ⟨by decide, by intro o ho; simp at ho; rcases ho with rfl | rfl <;> decide,
     by decide, trivial, trivial⟩

/-- C8 counterexample: a successful write onto a cache that is stale by
timestamp (here the initial, never-refreshed cache) leaves the entries
non-empty, but the immediately following read fails the freshness check,
relists from the (empty) store, and returns a result in which the freshly
written entry does not appear at all — so the claimed unconditional
visibility at position 0 of the next read does not hold. -/
theorem C8_stale_write_not_visible_counterexample :
    (apiframe_cache_write ⟨[], 0⟩ "https://b/i.png" 1000).data ≠ [] ∧
    gallery_read (apiframe_cache_write ⟨[], 0⟩ "https://b/i.png" 1000) 1000 [] =
      { result := [], state := ⟨[], 1000⟩, refreshed := true } := by
  refine ⟨?_, ?_⟩ <;> decide

/-- C8 (amended): a successful write (non-empty durable URL) inserts the
new catalog entry at position 0 of the entries and leaves everything else
unchanged — the `lastRefreshedAt` timestamp and all pre-existing entries —
for the APIFrame and the Kling writers alike; and the freshly written
entry is visible at the front of the next read provided that read passes
the freshness check (it occurs within the TTL window of the last
refresh). -/
theorem C8_write_prepends (c : CacheState) (b2 : String) (now now2 : Nat)
    (re : List Entry) (h : b2 ≠ "")
    (hf : now2 - c.timestamp < GALLERY_CACHE_TTL) :
    (apiframeEntry b2 now).url = b2 ∧ (apiframeEntry b2 now).time = now ∧
    apiframe_cache_write c b2 now =
      { data := apiframeEntry b2 now :: c.data, timestamp := c.timestamp } ∧
    kling_cache_write c b2 now =
      { data := klingEntry b2 now :: c.data, timestamp := c.timestamp } ∧
    gallery_read (apiframe_cache_write c b2 now) now2 re =
      { result := apiframeEntry b2 now :: c.data,
        state := { data := apiframeEntry b2 now :: c.data, timestamp := c.timestamp },
        refreshed := false } := by
  have hw : apiframe_cache_write c b2 now =
      { data := apiframeEntry b2 now :: c.data, timestamp := c.timestamp } := by
    simp [apiframe_cache_write, h]
  refine ⟨rfl, rfl, hw, by simp [kling_cache_write, h], ?_⟩
  rw [hw]
  simp [gallery_read, hf]

/-- Witness for C8 (amended), at a concrete cache, URL and clock. -/
theorem C8_write_prepends_witness :
    (apiframeEntry "https://x.png" 60).url = "https://x.png" ∧
    (apiframeEntry "https://x.png" 60).time = 60 ∧
    apiframe_cache_write ⟨[], 50⟩ "https://x.png" 60 =
      { data := [apiframeEntry "https://x.png" 60], timestamp := 50 } ∧
    kling_cache_write ⟨[], 50⟩ "https://x.png" 60 =
      { data := [klingEntry "https://x.png" 60], timestamp := 50 } ∧
    gallery_read (apiframe_cache_write ⟨[], 50⟩ "https://x.png" 60) 100 [] =
      { result := [apiframeEntry "https://x.png" 60],
        state := { data := [apiframeEntry "https://x.png" 60], timestamp := 50 },
        refreshed := false } :=
  C8_write_prepends ⟨[], 50⟩ "https://x.png" 60 100 [] (by decide) (by decide)

/-- C9: with a non-empty `POLLINATIONS_API_KEY`, the request URLs built by
all three Pollinations generation endpoints — text-to-image,
image-to-image and video — carry the key as a `key` query parameter
(first three conjuncts); each endpoint returns that full request URL as
the response `url` field whatever the relay/upload does (next three
conjuncts); and when the relay resp. the video upload fails, the same
key-bearing URL is also returned as `b2_url` (last three conjuncts). -/
theorem C9_key_in_pollinations_url (q qs : String → String)
    (promptB editP vidPrompt modelT modelI modelV src negative key aspect : String)
    (w hgt seed dur : Nat) (imageUrl : Option String) (audio : Bool)
    (envT envI : RelayEnv) (vidS3 : Bool) (vidData : List Nat) (vidUp : UploadOutcome)
    (hk : key ≠ "")
    (hrelayT : (download_and_upload_to_b2 envT).1 = "")
    (hrelayI : (download_and_upload_to_b2 envI).1 = "")
    (hupload : upload_video_to_b2 vidS3 vidData vidUp = "") :
    (∃ pre, pollinations_image_url q promptB modelT w hgt seed negative key =
      pre ++ ("&key=" ++ key)) ∧
    (∃ pre, pollinations_img2img_url q qs editP modelI src seed negative key =
      pre ++ ("&key=" ++ key)) ∧
    (∃ pre, pollinations_video_url q qs vidPrompt modelV dur aspect seed imageUrl audio key =
      pre ++ ("&key=" ++ key)) ∧
    (∀ e2 : RelayEnv,
      (generate_pollinations e2
        (pollinations_image_url q promptB modelT w hgt seed negative key)).url =
      pollinations_image_url q promptB modelT w hgt seed negative key) ∧
    (∀ e2 : RelayEnv,
      (generate_pollinations_img2img e2
        (pollinations_img2img_url q qs editP modelI src seed negative key)).url =
      pollinations_img2img_url q qs editP modelI src seed negative key) ∧
    (∀ (s3 : Bool) (d : List Nat) (up : UploadOutcome),
      (generate_pollinations_video s3 d up
        (pollinations_video_url q qs vidPrompt modelV dur aspect seed imageUrl audio key)).url =
      pollinations_video_url q qs vidPrompt modelV dur aspect seed imageUrl audio key) ∧
    generate_pollinations envT
        (pollinations_image_url q promptB modelT w hgt seed negative key) =
      { url := pollinations_image_url q promptB modelT w hgt seed negative key,
        b2_url := pollinations_image_url q promptB modelT w hgt seed negative key } ∧
    generate_pollinations_img2img envI
        (pollinations_img2img_url q qs editP modelI src seed negative key) =
      { url := pollinations_img2img_url q qs editP modelI src seed negative key,
        b2_url := pollinations_img2img_url q qs editP modelI src seed negative key } ∧
    generate_pollinations_video vidS3 vidData vidUp
        (pollinations_video_url q qs vidPrompt modelV dur aspect seed imageUrl audio key) =
      { url := pollinations_video_url q qs vidPrompt modelV dur aspect seed imageUrl audio key,
        b2_url := pollinations_video_url q qs vidPrompt modelV dur aspect seed imageUrl audio key } := by
  refine ⟨⟨POLLINATIONS_API_BASE ++ "/image/" ++ q promptB ++ "?model=" ++ modelT
      ++ "&width=" ++ toString w ++ "&height=" ++ toString hgt
      ++ "&seed=" ++ toString seed ++ "&enhance=true" ++ "&nologo=true"
      ++ "&negative=" ++ q negative, ?_⟩,
    ⟨POLLINATIONS_API_BASE ++ "/image/" ++ q editP ++ "?model=" ++ modelI
      ++ "&image=" ++ qs src ++ "&seed=" ++ toString seed ++ "&nologo=true"
      ++ "&negative=" ++ q negative, ?_⟩,
    ⟨POLLINATIONS_API_BASE ++ "/image/" ++ q vidPrompt ++ "?model=" ++ modelV
      ++ "&duration=" ++ toString dur ++ "&aspectRatio=" ++ aspect
      ++ "&seed=" ++ toString seed
      ++ (match imageUrl with
          | some u => if u = "" then "" else "&image=" ++ qs u
          | none => "")
      ++ (if audio ∧ modelV = "veo" then "&audio=true" else ""), ?_⟩,
    fun e2 => rfl, fun e2 => rfl, fun s3 d up => rfl, ?_, ?_, ?_⟩
  · unfold pollinations_image_url
    rw [if_pos hk]
  · unfold pollinations_img2img_url
    rw [if_pos hk]
  · unfold pollinations_video_url
    rw [if_pos hk]
  · simp [generate_pollinations, hrelayT]
  · simp [generate_pollinations_img2img, hrelayI]
  · simp [generate_pollinations_video, hupload]

/-- Witness for C9, with the identity as the quoting function, a relay
environment whose 429 budget is exhausted for both image endpoints, and a
video upload with missing store credentials. -/
theorem C9_key_in_pollinations_url_witness :
    (∃ pre, pollinations_image_url id "p" "flux" 1024 1024 7 "neg" "KEY" =
      pre ++ ("&key=" ++ "KEY")) ∧
    (∃ pre, pollinations_img2img_url id id "p" "kontext" "https://s" 7 "neg" "KEY" =
      pre ++ ("&key=" ++ "KEY")) ∧
    (∃ pre, pollinations_video_url id id "vp" "veo" 4 "16:9" 7 none false "KEY" =
      pre ++ ("&key=" ++ "KEY")) ∧
    (∀ e2 : RelayEnv,
      (generate_pollinations e2
        (pollinations_image_url id "p" "flux" 1024 1024 7 "neg" "KEY")).url =
      pollinations_image_url id "p" "flux" 1024 1024 7 "neg" "KEY") ∧
    (∀ e2 : RelayEnv,
      (generate_pollinations_img2img e2
        (pollinations_img2img_url id id "p" "kontext" "https://s" 7 "neg" "KEY")).url =
      pollinations_img2img_url id id "p" "kontext" "https://s" 7 "neg" "KEY") ∧
    (∀ (s3 : Bool) (d : List Nat) (up : UploadOutcome),
      (generate_pollinations_video s3 d up
        (pollinations_video_url id id "vp" "veo" 4 "16:9" 7 none false "KEY")).url =
      pollinations_video_url id id "vp" "veo" 4 "16:9" 7 none false "KEY") ∧
    generate_pollinations
        { resp := fun _ => .rate429, s3Configured := true, upload := .ok "u" }
        (pollinations_image_url id "p" "flux" 1024 1024 7 "neg" "KEY") =
      { url := pollinations_image_url id "p" "flux" 1024 1024 7 "neg" "KEY",
        b2_url := pollinations_image_url id "p" "flux" 1024 1024 7 "neg" "KEY" } ∧
    generate_pollinations_img2img
        { resp := fun _ => .rate429, s3Configured := true, upload := .ok "u" }
        (pollinations_img2img_url id id "p" "kontext" "https://s" 7 "neg" "KEY") =
      { url := pollinations_img2img_url id id "p" "kontext" "https://s" 7 "neg" "KEY",
        b2_url := pollinations_img2img_url id id "p" "kontext" "https://s" 7 "neg" "KEY" } ∧
    generate_pollinations_video false [1] (.ok "u")
        (pollinations_video_url id id "vp" "veo" 4 "16:9" 7 none false "KEY") =
      { url := pollinations_video_url id id "vp" "veo" 4 "16:9" 7 none false "KEY",
        b2_url := pollinations_video_url id id "vp" "veo" 4 "16:9" 7 none false "KEY" } :=
  C9_key_in_pollinations_url id id "p" "p" "vp" "flux" "kontext" "veo" "https://s"
    "neg" "KEY" "16:9" 1024 1024 7 4 none false
    { resp := fun _ => .rate429, s3Configured := true, upload := .ok "u" }
    { resp := fun _ => .rate429, s3Configured := true, upload := .ok "u" }
    false [1] (.ok "u") (by decide) (by decide) (by decide) (by decide)

/-- C10: the gallery relist keeps exactly the objects whose key filename
ends in `.png` (image sources) resp. `.mp4` (video sources): the rebuilt
entries are a permutation of the image/video entries of exactly the
matching objects, so every other object under the prefix is excluded. -/
theorem C10_relist_filters_extensions (baseUrl pfx : String) (contents : List B2Obj) :
    (sync_list_b2_objects baseUrl pfx contents).Perm
      ((contents.filter fun o => strEndsWith (filenameOf o.key) ".png").map
        (mkImageEntry baseUrl pfx)) ∧
    (sync_list_b2_videos baseUrl pfx contents).Perm
      ((contents.filter fun o => strEndsWith (filenameOf o.key) ".mp4").map
        (mkVideoEntry baseUrl pfx)) := by
  constructor
  · have heq := filterMap_if_eq_map_filter
      (fun o => strEndsWith (filenameOf o.key) ".png") (mkImageEntry baseUrl pfx) contents
    have h2 : (contents.filterMap fun o =>
        if strEndsWith (filenameOf o.key) ".png" then some (mkImageEntry baseUrl pfx o)
        else none).Perm
        ((contents.filter fun o => strEndsWith (filenameOf o.key) ".png").map
          (mkImageEntry baseUrl pfx)) := by
      rw [heq]
    exact (List.mergeSort_perm _ timeDesc).trans h2
  · have heq := filterMap_if_eq_map_filter
      (fun o => strEndsWith (filenameOf o.key) ".mp4") (mkVideoEntry baseUrl pfx) contents
    have h2 : (contents.filterMap fun o =>
        if strEndsWith (filenameOf o.key) ".mp4" then some (mkVideoEntry baseUrl pfx o)
        else none).Perm
        ((contents.filter fun o => strEndsWith (filenameOf o.key) ".mp4").map
          (mkVideoEntry baseUrl pfx)) := by
      rw [heq]
    exact (List.mergeSort_perm _ timeDesc).trans h2

end CinematicAI
